import Mathlib

/-!
Verification of the go-vault-demo client against its specification.

The Go source (package `client`, plus the `main` package's `init` and the
configuration glue) is shallowly embedded below.  Network interactions with
the Vault server, the cloud metadata endpoints, the IAM signing service and
the local filesystem are abstracted as an oracle (`World`) whose fields give
the response of each external collaborator; the embedded functions record the
sequence of outbound network calls they make (`NetCall` traces) so that
claims about "zero network calls" and "never calls the login endpoint" can be
stated.  Go panics (nil-pointer dereference, failed interface type
assertion) are modelled explicitly by the `Outcome.panic` constructor so that
"returns an error" and "crashes" are distinguishable.
-/

namespace GoVault

/-- Errors produced by the client.  The Go source returns plain `error`
values; the constructors tag each `return` site with the spec's taxonomy so
that "configuration error" is recognizable (each constructor corresponds to
identifiable `errors.New` / `fmt.Errorf` sites in the source). -/
inductive VErr where
  | config (msg : String)
  | availability (msg : String)
  | upstream (msg : String)
  | transport (msg : String)
  | io (msg : String)
  | unsupported (method : String)
deriving DecidableEq, Repr

/-- Result of a Go function that can return normally, return an error, or
panic (nil-pointer dereference / failed interface type assertion). -/
inductive Outcome (α : Type) where
  | ok (a : α)
  | err (e : VErr)
  | panic (msg : String)
deriving DecidableEq, Repr

/-- The message carried by an error (used where the source wraps an error
with `fmt.Errorf`). -/
def VErr.msgOf : VErr → String
  | .config m => m
  | .availability m => m
  | .upstream m => m
  | .transport m => m
  | .io m => m
  | .unsupported m => m

/-- A Go `interface{}` value as it occurs in the `map[string]interface{}`
payloads and `Secret.Data` maps of the source. -/
inductive VVal where
  | str (s : String)
  | bool (b : Bool)
  | int (n : Int)
deriving DecidableEq, Repr

/-- `map[string]interface{}` from the source, as an association list. -/
abbrev VData := List (String × VVal)

/-- Go map indexing `d[k]`: `none` models the nil interface returned for a
missing key. -/
def dataGet (d : VData) (k : String) : Option VVal :=
  (d.find? fun p => p.1 == k).map Prod.snd

/-- The Go panic message for a nil-pointer dereference. -/
def nilDeref : String := "runtime error: invalid memory address or nil pointer dereference"

/-- The Go panic message for a failed interface type assertion. -/
def ifaceConv : String := "interface conversion"

/-- `api.SecretAuth` (the fields the source reads). -/
structure SecretAuth where
  clientToken : String
  accessor : String
  renewable : Bool
  leaseDuration : Nat
  metadata : VData
deriving DecidableEq, Repr

/-- `api.Secret` (the fields the source reads).  `auth = none` models a
response whose `Auth` pointer is nil. -/
structure Secret where
  leaseID : String
  renewable : Bool
  data : VData
  auth : Option SecretAuth
deriving DecidableEq, Repr

/-- `client.Credential` from the source. -/
structure Credential where
  token : String
  roleID : String
  secretID : String
  serviceAccount : String
deriving DecidableEq, Repr

/-- `client.Vault` from the source. -/
structure Vault where
  host : String
  port : String
  scheme : String
  authentication : String
  role : String
  mount : String
  credential : Credential
deriving DecidableEq, Repr

/-- An outbound network call made by the client (the observable effect
trace). -/
inductive NetCall where
  | write (path : String)
  | read (path : String)
  | lookupSelf
  | metadataCheck
  | httpGet (url : String)
  | signJwt
  | revokeSelf (token : String)
deriving DecidableEq, Repr

/-- Whether a call is a `client.Logical().Write` (every login-endpoint call
in the source is such a write). -/
def NetCall.isWrite : NetCall → Bool
  | .write _ => true
  | _ => false

/-- An HTTP response as the source consumes it: status code plus body. -/
structure HttpResp where
  status : Nat
  body : String
deriving DecidableEq, Repr

/-- The external world: responses of every collaborator the client talks to.
`envToken` is the token the freshly constructed `api.Client` already holds
from the `VAULT_TOKEN` environment variable (`client.Token()` right after
`NewClient`).  An `Except.error` in `newClient`, `httpGet`, etc. models the
corresponding Go call returning a non-nil error. -/
structure World where
  envToken : String
  newClient : Except VErr Unit
  setAddress : Except VErr Unit
  write : String → VData → Except VErr (Option Secret)
  read : String → Except VErr (Option Secret)
  lookupSelf : Except VErr (Option Secret)
  revokeSelf : String → Except VErr Unit
  readFile : String → Except VErr String
  ec2Available : Bool
  gceAvailable : Bool
  httpGet : String → Except VErr HttpResp
  signJwt : Except VErr String
  msiParse : String → Except VErr String
  stsMethod : String
  stsUrl : String
  stsHeaders : Except VErr String
  stsBody : Except VErr String

/-- Base64 alphabet (RFC 4648, as used by `base64.StdEncoding`). -/
def b64Alphabet : List Char :=
  "ABCDEFGHIJKLMNOPQRSTUVWXYZabcdefghijklmnopqrstuvwxyz0123456789+/".toList

/-- Index into the base64 alphabet. -/
def b64Char (n : Nat) : Char := b64Alphabet.getD n '='

/-- Base64-encode a byte list (standard encoding with padding). -/
def b64Rec : List Nat → List Char
  | [] => []
  | [a] => [b64Char (a / 4), b64Char (a % 4 * 16), '=', '=']
  | [a, b] => [b64Char (a / 4), b64Char (a % 4 * 16 + b / 16), b64Char (b % 16 * 4), '=']
  | a :: b :: c :: rest =>
    b64Char (a / 4) :: b64Char (a % 4 * 16 + b / 16) ::
      b64Char (b % 16 * 4 + c / 64) :: b64Char (c % 64) :: b64Rec rest

/-- `base64.StdEncoding.EncodeToString([]byte(s))`. -/
def b64S (s : String) : String := String.mk (b64Rec (s.toUTF8.toList.map UInt8.toNat))

/-- Result of one authentication branch of the `switch` in
`Vault.Initialize`: calls made, the client's token afterwards, and the
outcome (`ok` means execution falls through to the lookup epilogue). -/
abbrev BranchOut := List NetCall × String × Outcome Unit

/-- Shared tail of every login branch: check the `Logical().Write` response
and run `client.SetToken(secret.Auth.ClientToken)`.  A nil secret or a nil
`Auth` pointer is dereferenced by `secret.Auth.Metadata` / `.ClientToken`
and panics, exactly as in the source. -/
def extractToken (t : List NetCall) (tok0 : String)
    (resp : Except VErr (Option Secret)) : BranchOut :=
  match resp with
  | .error e => (t, tok0, .err e)
  | .ok none => (t, tok0, .panic nilDeref)
  | .ok (some s) =>
    match s.auth with
    | none => (t, tok0, .panic nilDeref)
    | some a => (t, a.clientToken, .ok ())

/-- `case "token"` of `Vault.Initialize`: prefer the token the client
already has from `VAULT_TOKEN`; otherwise install the config-file token;
otherwise fail.  No network call is made. -/
def tokenBranch (w : World) (v : Vault) : BranchOut :=
  if w.envToken ≠ "" then ([], w.envToken, .ok ())
  else if v.credential.token ≠ "" then ([], v.credential.token, .ok ())
  else ([], w.envToken, .err (.config "Could not get Vault token."))

/-- `case "approle"`: role-ID and secret-ID presence checks, then the login
write. -/
def approleBranch (w : World) (v : Vault) : BranchOut :=
  if v.credential.roleID = "" then ([], w.envToken, .err (.config "Role ID not found."))
  else if v.credential.secretID = "" then ([], w.envToken, .err (.config "Secret ID not found."))
  else
    extractToken [.write ("auth/" ++ v.mount ++ "/login")] w.envToken
      (w.write ("auth/" ++ v.mount ++ "/login")
        [("role_id", .str v.credential.roleID), ("secret_id", .str v.credential.secretID)])

/-- `case "kubernetes"`: mount, role and service-account-file checks, read
the JWT from the pod filesystem, then the login write. -/
def kubernetesBranch (w : World) (v : Vault) : BranchOut :=
  if v.mount = "" then ([], w.envToken, .err (.config "Auth mount not in config."))
  else if v.role = "" then ([], w.envToken, .err (.config "K8s role not in config."))
  else if v.credential.serviceAccount = "" then
    ([], w.envToken, .err (.config "K8s SA file not in config."))
  else
    match w.readFile v.credential.serviceAccount with
    | .error e => ([], w.envToken, .err e)
    | .ok jwt =>
      extractToken [.write ("auth/" ++ v.mount ++ "/login")] w.envToken
        (w.write ("auth/" ++ v.mount ++ "/login")
          [("jwt", .str jwt), ("role", .str v.role)])

/-- `case "aws-iam"`: mount and role checks, locally sign an STS
get-caller-identity request (the signed material is supplied by the world;
`json.Marshal` / `ReadAll` failures are the two checked error returns), then
the login write with the base64-encoded request. -/
def awsIamBranch (w : World) (v : Vault) : BranchOut :=
  if v.mount = "" then ([], w.envToken, .err (.config "Auth mount not in config."))
  else if v.role = "" then ([], w.envToken, .err (.config "AWS role not in config."))
  else
    match w.stsHeaders with
    | .error e => ([], w.envToken, .err e)
    | .ok hj =>
      match w.stsBody with
      | .error e => ([], w.envToken, .err e)
      | .ok rb =>
        extractToken [.write ("auth/" ++ v.mount ++ "/login")] w.envToken
          (w.write ("auth/" ++ v.mount ++ "/login")
            [("iam_http_request_method", .str w.stsMethod),
             ("iam_request_url", .str (b64S w.stsUrl)),
             ("iam_request_headers", .str (b64S hj)),
             ("iam_request_body", .str (b64S rb)),
             ("role", .str v.role)])

/-- The EC2 instance-identity document URL the source fetches. -/
def pkcs7Url : String := "http://169.254.169.254/latest/dynamic/instance-identity/pkcs7"

/-- `case "aws-ec2"`: only the mount is checked (the role is not); then the
metadata-availability probe, the PKCS7 fetch (whose `http.Get` error is
ignored in the source, so a failed fetch dereferences a nil response and
panics), then the login write. -/
def awsEc2Branch (w : World) (v : Vault) : BranchOut :=
  if v.mount = "" then ([], w.envToken, .err (.config "Auth mount not in config."))
  else if ¬ w.ec2Available then
    ([.metadataCheck], w.envToken, .err (.availability "Metadata service not available"))
  else
    match w.httpGet pkcs7Url with
    | .error _ => ([.metadataCheck, .httpGet pkcs7Url], w.envToken, .panic nilDeref)
    | .ok resp =>
      extractToken [.metadataCheck, .httpGet pkcs7Url, .write ("auth/" ++ v.mount ++ "/login")]
        w.envToken
        (w.write ("auth/" ++ v.mount ++ "/login")
          [("role", .str v.role), ("pkcs7", .str resp.body.trim)])

/-- `case "gcp-iam"`: mount, role and service-account checks, ask the IAM
service to sign a JWT (OAuth-client construction errors are unchecked in the
source and folded into the signing response), then the login write. -/
def gcpIamBranch (w : World) (v : Vault) : BranchOut :=
  if v.mount = "" then ([], w.envToken, .err (.config "Auth mount not in config."))
  else if v.role = "" then ([], w.envToken, .err (.config "GCP role not in config."))
  else if v.credential.serviceAccount = "" then
    ([], w.envToken, .err (.config "GCP SA not in config."))
  else
    match w.signJwt with
    | .error e => ([.signJwt], w.envToken, .err e)
    | .ok jwt =>
      extractToken [.signJwt, .write ("auth/" ++ v.mount ++ "/login")] w.envToken
        (w.write ("auth/" ++ v.mount ++ "/login")
          [("role", .str v.role), ("jwt", .str jwt)])

/-- Go `%s` formatting of the whole `Credential` struct (the source passes
`v.Credential` rather than `v.Credential.ServiceAccount` to `Sprintf`). -/
def fmtCredential (c : Credential) : String :=
  "\x7b" ++ c.token ++ " " ++ c.roleID ++ " " ++ c.secretID ++ " " ++ c.serviceAccount ++ "\x7d"

/-- The metadata URL built by the `gcp-gce` branch (query string appended
textually; percent-encoding of the audience is not modelled). -/
def gceMetaUrl (v : Vault) : String :=
  (if v.credential.serviceAccount ≠ "" then
    "http://metadata/computeMetadata/v1/instance/service-accounts/" ++ fmtCredential v.credential ++ "/login"
  else
    "http://metadata/computeMetadata/v1/instance/service-accounts/default/identity")
  ++ "?audience=" ++ v.scheme ++ "://" ++ v.host ++ ":" ++ v.port ++ "/vault/" ++ v.role
  ++ "&format=full"

/-- `case "gcp-gce"`: only the mount is checked (the role is not); then the
on-GCE probe, the identity-token fetch, then the login write. -/
def gcpGceBranch (w : World) (v : Vault) : BranchOut :=
  if v.mount = "" then ([], w.envToken, .err (.config "Auth mount not in config."))
  else if ¬ w.gceAvailable then
    ([], w.envToken, .err (.availability "Metadata service not available"))
  else
    match w.httpGet (gceMetaUrl v) with
    | .error e => ([.httpGet (gceMetaUrl v)], w.envToken, .err e)
    | .ok resp =>
      extractToken [.httpGet (gceMetaUrl v), .write ("auth/" ++ v.mount ++ "/login")]
        w.envToken
        (w.write ("auth/" ++ v.mount ++ "/login")
          [("role", .str v.role), ("jwt", .str resp.body)])

/-- The MSI token URL built by the `azure-msi` branch. -/
def msiUrl (v : Vault) : String :=
  "http://169.254.169.254/metadata/identity/oauth2/token?api-version=2018-02-01&resource="
    ++ v.credential.serviceAccount

/-- `case "azure-msi"`: mount, role and resource checks, fetch a
managed-identity token from the local metadata endpoint (errors wrapped with
`fmt.Errorf` as in the source), check the 200 status, unmarshal the
`access_token`, then the login write. -/
def azureMsiBranch (w : World) (v : Vault) : BranchOut :=
  if v.mount = "" then ([], w.envToken, .err (.config "Auth mount not in config."))
  else if v.role = "" then ([], w.envToken, .err (.config "Azure role not in config."))
  else if v.credential.serviceAccount = "" then
    ([], w.envToken, .err (.config "Azure resource not in config."))
  else
    match w.httpGet (msiUrl v) with
    | .error e =>
      ([.httpGet (msiUrl v)], w.envToken,
        .err (.upstream ("Error calling token endpoint: " ++ VErr.msgOf e)))
    | .ok resp =>
      if resp.status ≠ 200 then
        ([.httpGet (msiUrl v)], w.envToken,
          .err (.upstream ("Error getting token from MSI: " ++ resp.body)))
      else
        match w.msiParse resp.body with
        | .error e =>
          ([.httpGet (msiUrl v)], w.envToken,
            .err (.upstream ("Error unmarshalling the response: " ++ VErr.msgOf e)))
        | .ok accessTok =>
          extractToken [.httpGet (msiUrl v), .write ("auth/" ++ v.mount ++ "/login")]
            w.envToken
            (w.write ("auth/" ++ v.mount ++ "/login")
              [("role", .str v.role), ("jwt", .str accessTok)])

/-- The `switch v.Authentication` dispatch of `Vault.Initialize`. -/
def authBranch (w : World) (v : Vault) : BranchOut :=
  if v.authentication = "token" then tokenBranch w v
  else if v.authentication = "approle" then approleBranch w v
  else if v.authentication = "kubernetes" then kubernetesBranch w v
  else if v.authentication = "aws-iam" then awsIamBranch w v
  else if v.authentication = "aws-ec2" then awsEc2Branch w v
  else if v.authentication = "gcp-iam" then gcpIamBranch w v
  else if v.authentication = "gcp-gce" then gcpGceBranch w v
  else if v.authentication = "azure-msi" then azureMsiBranch w v
  else ([], w.envToken, .err (.unsupported v.authentication))

/-- Result of `Vault.Initialize`: the calls made, the client's token
afterwards, and the outcome; on success the `Bool` records whether
`go v.RenewToken()` was launched (the token Lease Supervisor). -/
structure InitOut where
  trace : List NetCall
  clientToken : String
  result : Outcome Bool
deriving DecidableEq, Repr

/-- Epilogue of `Vault.Initialize`: `LookupSelf`, then the unchecked
assertion `lookup.Data["renewable"].(bool)`, then the conditional launch of
the token supervisor. -/
def lookupEpilogue (w : World) (t : List NetCall) (tok : String) : InitOut :=
  ⟨t ++ [.lookupSelf], tok,
    match w.lookupSelf with
    | .error e => .err e
    | .ok none => .panic nilDeref
    | .ok (some lk) =>
      match dataGet lk.data "renewable" with
      | some (.bool b) => .ok b
      | _ => .panic ifaceConv⟩

/-- Wrap a finished branch: early error and panic returns pass through;
success falls into the lookup epilogue. -/
def afterBranch (w : World) : BranchOut → InitOut
  | (t, tok, .err e) => ⟨t, tok, .err e⟩
  | (t, tok, .panic m) => ⟨t, tok, .panic m⟩
  | (t, tok, .ok _) => lookupEpilogue w t tok

/-- `Vault.Initialize` (called `Init` at its `app.go` call site).  The
`NewClient` error is overwritten before being checked, so a failed client
construction leaves `client` nil and the following `SetAddress` call panics,
as in the source. -/
def Init (w : World) (v : Vault) : InitOut :=
  match w.newClient with
  | .error _ => ⟨[], "", .panic nilDeref⟩
  | .ok _ =>
    match w.setAddress with
    | .error e => ⟨[], w.envToken, .err e⟩
    | .ok _ => afterBranch w (authBranch w v)

/-- `Vault.GetSecret`: a read whose error is checked, followed by the
dereference `*secret`, which panics when the read returned a nil secret. -/
def GetSecret (w : World) (path : String) : List NetCall × Outcome Secret :=
  ([.read path],
    match w.read path with
    | .error e => .err e
    | .ok none => .panic nilDeref
    | .ok (some s) => .ok s)

/-- `Vault.Encrypt`: write the plaintext, then the unchecked assertion
`secret.Data["ciphertext"].(string)`. -/
def Encrypt (w : World) (path plaintext : String) : List NetCall × Outcome String :=
  ([.write path],
    match w.write path [("plaintext", .str plaintext)] with
    | .error e => .err e
    | .ok none => .panic nilDeref
    | .ok (some s) =>
      match dataGet s.data "ciphertext" with
      | some (.str c) => .ok c
      | _ => .panic ifaceConv)

/-- `Vault.Decrypt`: write the ciphertext, then the unchecked assertion
`secret.Data["plaintext"].(string)`. -/
def Decrypt (w : World) (path ciphertext : String) : List NetCall × Outcome String :=
  ([.write path],
    match w.write path [("ciphertext", .str ciphertext)] with
    | .error e => .err e
    | .ok none => .panic nilDeref
    | .ok (some s) =>
      match dataGet s.data "plaintext" with
      | some (.str p) => .ok p
      | _ => .panic ifaceConv)

/-- Process-level state visible to `Vault.Close`: the client's token and
the number of renewal goroutines currently running. -/
structure ProcState where
  clientToken : String
  runningSupervisors : Nat
deriving DecidableEq, Repr

/-- Result of `Vault.Close`. -/
structure CloseOut where
  trace : List NetCall
  state : ProcState
  result : Outcome Unit
deriving DecidableEq, Repr

/-- `Vault.Close`: the single statement
`client.Auth().Token().RevokeSelf(client.Token())`, whose returned error is
discarded.  The body contains no operation on the renewal goroutines, so the
process state is returned unchanged. -/
def Close (w : World) (st : ProcState) : CloseOut :=
  match w.revokeSelf st.clientToken with
  | .ok _ => ⟨[.revokeSelf st.clientToken], st, .ok ()⟩
  | .error _ => ⟨[.revokeSelf st.clientToken], st, .ok ()⟩

/-- The response of the renew endpoint to one renew call: a refreshed lease
duration, or a terminal failure (`some e` models a non-nil error delivered
on the renewer's done channel, `none` the nil error delivered when the lease
is past its maximum renewable age). -/
inductive RenewOutcome where
  | success (leaseDuration : Nat)
  | failure (err : Option String)
deriving DecidableEq, Repr

/-- An event delivered by the library renewer (`api.Renewer`) on its
channels: a renewal on `RenewCh`, or a single terminal event on `DoneCh`. -/
inductive RenewerEvent where
  | renewed (leaseDuration : Nat)
  | done (err : Option String)
deriving DecidableEq, Repr

/-- A log line emitted by the supervisory loops of `RenewToken` /
`RenewSecret`: a successful-renewal log, or the `log.Fatal` that terminates
the hosting process. -/
inductive Notification where
  | renewSuccess
  | fatal
deriving DecidableEq, Repr

/-- The external `api.Renewer` (hashicorp/vault/api), driven by the given
sequence of renew-endpoint responses: it renews immediately, reports each
success on `RenewCh`, and on the first failure reports once on `DoneCh` and
stops issuing renew calls. -/
def renewerEvents : List RenewOutcome → List RenewerEvent
  | [] => []
  | .success d :: rest => .renewed d :: renewerEvents rest
  | .failure e :: _ => [.done e]

/-- The `for { select { ... } }` loop shared by `RenewToken` and
`RenewSecret` (lines 515-527 and 546-557 of the client source): each
`RenewCh` event is logged as a success; the first `DoneCh` event reaches
`log.Fatal` / `log.Fatalf` and the process dies, so nothing follows it. -/
def supervisorLoop : List RenewerEvent → List Notification
  | [] => []
  | .renewed _ :: rest => .renewSuccess :: supervisorLoop rest
  | .done _ :: _ => [.fatal]

/-- Number of renew calls issued against an endpoint answering with the
given sequence: every response up to and including the first failure
corresponds to one issued call; no call is issued after the failure. -/
def renewCallCount : List RenewOutcome → Nat
  | [] => 0
  | .success _ :: rest => 1 + renewCallCount rest
  | .failure _ :: _ => 1

/-- `Vault.RenewToken`, run against a renew endpoint answering with the
given sequence: the explicit `RenewSelf(0)` consumes the first response (a
failure there is `log.Fatal`-ed immediately, with no success notification);
on success the renewer is created over the remaining responses and the
supervisory loop processes its events.  Returns the emitted notifications
and the number of renew calls issued. -/
def RenewTokenRun : List RenewOutcome → List Notification × Nat
  | [] => ([], 1)
  | .failure _ :: _ => ([.fatal], 1)
  | .success _ :: rest => (supervisorLoop (renewerEvents rest), 1 + renewCallCount rest)

/-- `Vault.RenewSecret`, run against a renew endpoint answering with the
given sequence: the renewer is created directly over the responses (there is
no explicit initial renewal in the repository code) and the supervisory loop
processes its events. -/
def RenewSecretRun (outcomes : List RenewOutcome) : List Notification × Nat :=
  (supervisorLoop (renewerEvents outcomes), renewCallCount outcomes)

/-- A renew endpoint that succeeds `n` times and then reports exhaustion
(the renewer delivers a nil error on `DoneCh`). -/
def mockEndpoint (n d : Nat) : List RenewOutcome :=
  List.replicate n (.success d) ++ [.failure none]

/-- An action of a running supervisor, for ordering statements: a renew call
against the endpoint, or a timer wait. -/
inductive SupAction where
  | renewCall
  | wait
deriving DecidableEq, Repr

/-- Action sequence of the library renewer: renew first, then wait, then
renew again, stopping at the first failure. -/
def renewerActions : List RenewOutcome → List SupAction
  | [] => []
  | .success _ :: rest => .renewCall :: .wait :: renewerActions rest
  | .failure _ :: _ => [.renewCall]

/-- Action sequence of `Vault.RenewToken`: the explicit `RenewSelf(0)` call
comes first in the body, before the renewer and its wait loop exist. -/
def RenewTokenActions : List RenewOutcome → List SupAction
  | [] => [.renewCall]
  | .failure _ :: _ => [.renewCall]
  | .success _ :: rest => .renewCall :: renewerActions rest

/-- Action sequence of `Vault.RenewSecret`: entirely the renewer's. -/
def RenewSecretActions (outcomes : List RenewOutcome) : List SupAction :=
  renewerActions outcomes

/-- Result of the secret-retrieval phase of `main.init` (app.go lines
89-112): whether `go vault.RenewSecret(secret)` was launched, and the DAO
credentials (or the `log.Fatal` / panic that ended startup). -/
structure AppSecretOut where
  renewSecretStarted : Bool
  result : Outcome (String × String)
deriving DecidableEq, Repr

/-- The DAO credential extraction of `main.init`:
`secret.Data["username"].(string)` and `secret.Data["password"].(string)`,
both unchecked type assertions. -/
def appDaoFields (s : Secret) : Outcome (String × String) :=
  match dataGet s.data "username" with
  | some (.str u) =>
    match dataGet s.data "password" with
    | some (.str p) => .ok (u, p)
    | _ => .panic ifaceConv
  | _ => .panic ifaceConv

/-- The secret-retrieval phase of `main.init`: check the database role is
configured, fetch the secret, launch `go vault.RenewSecret(secret)`
unconditionally, then extract the DAO credentials.  The supervisor launch
precedes the extraction and does not consult `secret.Renewable`. -/
def appSecretPhase (w : World) (dbRole : String) : AppSecretOut :=
  if dbRole = "" then ⟨false, .err (.config "Could not get DB role from config.")⟩
  else
    match (GetSecret w dbRole).2 with
    | .err e => ⟨false, .err e⟩
    | .panic m => ⟨false, .panic m⟩
    | .ok s => ⟨true, appDaoFields s⟩

/-! ### Concrete fixtures

Concrete worlds and configurations used to evaluate the model on explicit
inputs (witnesses and counterexamples). -/

/-- A base world: no environment token, client construction succeeds, reads
and writes answer with a nil secret, the self-lookup reports a renewable
token, EC2 metadata is reachable. -/
def w0 : World where
  envToken := ""
  newClient := .ok ()
  setAddress := .ok ()
  write := fun _ _ => .ok none
  read := fun _ => .ok none
  lookupSelf := .ok (some ⟨"", true, [("renewable", .bool true)], none⟩)
  revokeSelf := fun _ => .ok ()
  readFile := fun _ => .error (.io "open: no such file or directory")
  ec2Available := true
  gceAvailable := false
  httpGet := fun _ => .ok ⟨200, "PKCS7DATA"⟩
  signJwt := .error (.upstream "signJwt unavailable")
  msiParse := fun _ => .error (.upstream "unmarshal failure")
  stsMethod := "POST"
  stsUrl := "https://sts.amazonaws.com/"
  stsHeaders := .ok "headers-json"
  stsBody := .ok "Action=GetCallerIdentity"

/-- A base configuration with all fields empty. -/
def vBase : Vault := ⟨"127.0.0.1", "8200", "http", "", "", "", ⟨"", "", "", ""⟩⟩

/-- The login response used by the aws-ec2 scenario. -/
def secEc2 : Secret := ⟨"", false, [], some ⟨"tok-ec2", "acc-ec2", true, 60, []⟩⟩

/-- A world whose aws login endpoint succeeds. -/
def wEc2 : World :=
  { w0 with write := fun p _ => if p = "auth/aws/login" then .ok (some secEc2) else .ok none }

/-- An aws-ec2 configuration with a mount but an empty role. -/
def vEc2 : Vault := { vBase with authentication := "aws-ec2", mount := "aws" }

/-- A world that already holds a token from the `VAULT_TOKEN` environment
variable. -/
def wEnv : World := { w0 with envToken := "env-tok" }

/-- A token-method configuration carrying a config-file token. -/
def vTokCfg : Vault := { vBase with authentication := "token", credential := ⟨"cfg-tok", "", "", ""⟩ }

/-- An approle configuration with both credential fields empty. -/
def vApprole : Vault := { vBase with authentication := "approle", mount := "approle" }

/-- A non-renewable database secret carrying DAO credentials. -/
def sNonRenew : Secret := ⟨"abc", false, [("username", .str "u"), ("password", .str "p")], none⟩

/-- A world whose read of the database role path yields `sNonRenew`. -/
def wSec : World :=
  { w0 with read := fun p => if p = "db/creds/app" then .ok (some sNonRenew) else .ok none }

/-- A secret with no data fields (a response lacking the expected
ciphertext/plaintext field). -/
def secNoFields : Secret := ⟨"", false, [], none⟩

/-- A world whose writes answer with a secret lacking the expected field. -/
def wMissing : World := { w0 with write := fun _ _ => .ok (some secNoFields) }

/-- A world whose writes fail with a transport error. -/
def wErr : World := { w0 with write := fun _ _ => .error (.transport "timeout") }

/-- A world implementing a transform endpoint: a write carrying `plaintext`
answers with `ciphertext = "enc:" ++ p`; a write carrying `ciphertext`
answers with the plaintext recovered by dropping the prefix. -/
def wRT : World :=
  { w0 with write := fun _ d =>
      match dataGet d "plaintext" with
      | some (.str p) => .ok (some ⟨"", false, [("ciphertext", .str ("enc:" ++ p))], none⟩)
      | _ =>
        match dataGet d "ciphertext" with
        | some (.str c) => .ok (some ⟨"", false, [("plaintext", .str (c.drop 4))], none⟩)
        | _ => .ok none }

/-- A process state with one running renewal goroutine. -/
def st1 : ProcState := ⟨"tok-1", 1⟩

/-! ### Helper lemmas -/

/-- The trace of a branch wrapped by `afterBranch` keeps its first call. -/
theorem afterBranch_trace_cons (w : World) (a : NetCall) (t : List NetCall) (tok : String)
    (o : Outcome Unit) : (afterBranch w (a :: t, tok, o)).trace.head? = some a := by
  cases o with
  | ok u => simp [afterBranch, lookupEpilogue]
  | err e => rfl
  | panic m => rfl

/-- Combined with `extractToken`: whatever the login response, the first
call of the branch's trace is preserved. -/
theorem afterBranch_extract_head (w : World) (a : NetCall) (t : List NetCall) (tok : String)
    (r : Except VErr (Option Secret)) :
    (afterBranch w (extractToken (a :: t) tok r)).trace.head? = some a := by
  rcases r with e | os
  · exact afterBranch_trace_cons w a t tok (.err e)
  · rcases os with _ | s
    · exact afterBranch_trace_cons w a t tok (.panic nilDeref)
    · obtain ⟨lid, ren, dat, auth⟩ := s
      cases auth with
      | none => exact afterBranch_trace_cons w a t tok (.panic nilDeref)
      | some au => exact afterBranch_trace_cons w a t au.clientToken (.ok ())

/-- Renewer events over an endpoint that succeeds `n` times then fails:
the responses after the failure are never consumed. -/
theorem renewerEvents_gen (n d : Nat) (e : Option String) (extra : List RenewOutcome) :
    renewerEvents (List.replicate n (.success d) ++ .failure e :: extra)
      = List.replicate n (.renewed d) ++ [.done e] := by
  induction n with
  | zero => simp [renewerEvents]
  | succ k ih => simp [List.replicate_succ, renewerEvents, ih]

/-- Renew calls against an endpoint that succeeds `n` times then fails:
one call per success plus the single failing call, none after it. -/
theorem renewCallCount_gen (n d : Nat) (e : Option String) (extra : List RenewOutcome) :
    renewCallCount (List.replicate n (.success d) ++ .failure e :: extra) = n + 1 := by
  induction n with
  | zero => simp [renewCallCount]
  | succ k ih => simp [List.replicate_succ, renewCallCount, ih]; omega

/-- The supervisory loop logs one success per renewal event and ends with
the fatal exit on the terminal event. -/
theorem supervisorLoop_gen (n d : Nat) (e : Option String) :
    supervisorLoop (List.replicate n (.renewed d) ++ [.done e])
      = List.replicate n Notification.renewSuccess ++ [.fatal] := by
  induction n with
  | zero => simp [supervisorLoop]
  | succ k ih => simp [List.replicate_succ, supervisorLoop, ih]

/-! ### Claim theorems -/

/-- Claim C1 (amended): `Vault.Close` issues exactly one `RevokeSelf` for
the current session token and raises no fatal-renewal report, but it stops
no running Lease Supervisor: the process state, including the number of
running renewal goroutines, is returned unchanged. -/
theorem c1_amended (w : World) (st : ProcState) :
    Close w st = ⟨[.revokeSelf st.clientToken], st, .ok ()⟩ := by
  unfold Close
  rcases w.revokeSelf st.clientToken with e | u <;> rfl

/-- Claim C1 counterexample: with one supervisor running, `Close` leaves it
running — renewal activity survives shutdown, contrary to the claim that
`Close` first stops every running Lease Supervisor. -/
theorem c1_counterexample :
    st1.runningSupervisors = 1 ∧ (Close w0 st1).state.runningSupervisors ≠ 0 := by
  decide

/-- Claim C8: calling `Vault.Close` twice never crashes: both calls return
normally (the revoke error, e.g. an already-revoked report, is discarded),
and the second call merely re-issues the same revoke request. -/
theorem c8_thm (w : World) (st : ProcState) :
    (Close w st).result = .ok () ∧ (Close w (Close w st).state).result = .ok ()
      ∧ (Close w (Close w st).state).trace = [.revokeSelf st.clientToken] := by
  rcases h : w.revokeSelf st.clientToken with e | u <;> simp [Close, h]

/-- Claim C10: `Vault.GetSecret` dereferences a nil read result and panics
whenever the read completed without a transport error but yielded no
secret; its error return occurs exactly when the underlying read itself
failed. -/
theorem c10_thm (w : World) (path : String) :
    (w.read path = .ok none → (GetSecret w path).2 = .panic nilDeref)
      ∧ (∀ e, ((GetSecret w path).2 = .err e ↔ w.read path = .error e)) := by
  constructor
  · intro h
    simp [GetSecret, h]
  · intro e
    rcases h : w.read path with e' | os
    · simp [GetSecret, h]
    · rcases os with _ | s <;> simp [GetSecret, h]

/-- Claim C10 witness: a concrete world whose read of a nonexistent path
yields a nil secret makes `GetSecret` panic. -/
theorem c10_witness : (GetSecret w0 "secret/missing").2 = .panic nilDeref :=
  (c10_thm w0 "secret/missing").1 rfl

/-- Claim C5 (amended): on transport failure `Encrypt` and `Decrypt` return
the error, but when the response lacks the expected ciphertext/plaintext
field they panic (unchecked interface type assertion) instead of returning
an error. -/
theorem c5_amended (w : World) (path pt ct : String) :
    (∀ e, w.write path [("plaintext", .str pt)] = .error e → (Encrypt w path pt).2 = .err e)
      ∧ (∀ s, w.write path [("plaintext", .str pt)] = .ok (some s) →
          dataGet s.data "ciphertext" = none → (Encrypt w path pt).2 = .panic ifaceConv)
      ∧ (∀ e, w.write path [("ciphertext", .str ct)] = .error e → (Decrypt w path ct).2 = .err e)
      ∧ (∀ s, w.write path [("ciphertext", .str ct)] = .ok (some s) →
          dataGet s.data "plaintext" = none → (Decrypt w path ct).2 = .panic ifaceConv) :=
  ⟨fun e h => by simp [Encrypt, h], fun s h hd => by simp [Encrypt, h, hd],
   fun e h => by simp [Decrypt, h], fun s h hd => by simp [Decrypt, h, hd]⟩

/-- Claim C5 witness: the amended behaviors at concrete inputs — a response
lacking the ciphertext field panics, a transport failure is returned as an
error. -/
theorem c5_witness :
    (Encrypt wMissing "transit/encrypt/order" "aGVsbG8=").2 = .panic ifaceConv
      ∧ (Decrypt wErr "transit/decrypt/order" "vault:v1:abc").2 = .err (.transport "timeout") :=
  ⟨(c5_amended wMissing "transit/encrypt/order" "aGVsbG8=" "x").2.1 secNoFields rfl rfl,
   (c5_amended wErr "transit/decrypt/order" "x" "vault:v1:abc").2.2.1 (.transport "timeout") rfl⟩

/-- Claim C5 counterexample: at a concrete response lacking the expected
field, `Encrypt` and `Decrypt` crash (panic) — they do not return an error
as the claim states. -/
theorem c5_counterexample :
    (Encrypt wMissing "transit/encrypt/order" "cGxhaW4=").2 = .panic ifaceConv
      ∧ (Decrypt wMissing "transit/decrypt/order" "vault:v1:xyz").2 = .panic ifaceConv :=
  ⟨rfl, rfl⟩

/-- Claim C9: when the transform endpoint answers both calls successfully
and its decrypt response inverts its encrypt response, the client round
trip `Decrypt(path, Encrypt(path, p))` returns `p` — the client passes both
values through unmodified. -/
theorem c9_thm (w : World) (path p c : String) (s1 s2 : Secret)
    (h1 : w.write path [("plaintext", .str p)] = .ok (some s1))
    (h2 : dataGet s1.data "ciphertext" = some (.str c))
    (h3 : w.write path [("ciphertext", .str c)] = .ok (some s2))
    (h4 : dataGet s2.data "plaintext" = some (.str p)) :
    (Encrypt w path p).2 = .ok c ∧ (Decrypt w path c).2 = .ok p := by
  constructor
  · simp [Encrypt, h1, h2]
  · simp [Decrypt, h3, h4]

/-- Claim C9 witness: the round trip on a concrete reversible transform
world returns the original plaintext. -/
theorem c9_witness :
    (Encrypt wRT "transit/encrypt/order" "hello").2 = .ok "enc:hello"
      ∧ (Decrypt wRT "transit/encrypt/order" "enc:hello").2 = .ok "hello" :=
  c9_thm wRT "transit/encrypt/order" "hello" "enc:hello"
    ⟨"", false, [("ciphertext", .str "enc:hello")], none⟩
    ⟨"", false, [("plaintext", .str "hello")], none⟩ rfl rfl rfl rfl

/-- Claim C6 (amended): against a renew endpoint that succeeds `n` times
then reports exhaustion, the secret supervisor emits exactly `n` success
notifications then one terminal fatal notification; the token supervisor's
immediate `RenewSelf(0)` consumes the first success without a notification,
so it emits `n` success notifications for `n + 1` endpoint successes (and an
immediate fatal when the endpoint fails at once).  Both issue one renew call
per success plus the single failing call, and consume nothing after the
terminal failure. -/
theorem c6_amended (n d : Nat) (extra : List RenewOutcome) :
    RenewSecretRun (mockEndpoint n d)
        = (List.replicate n Notification.renewSuccess ++ [.fatal], n + 1)
      ∧ RenewSecretRun (mockEndpoint n d ++ extra)
        = (List.replicate n Notification.renewSuccess ++ [.fatal], n + 1)
      ∧ RenewTokenRun (mockEndpoint (n + 1) d)
        = (List.replicate n Notification.renewSuccess ++ [.fatal], n + 2)
      ∧ RenewTokenRun (mockEndpoint 0 d) = ([.fatal], 1) := by
  refine ⟨?_, ?_, ?_, rfl⟩
  · unfold RenewSecretRun mockEndpoint
    rw [renewerEvents_gen n d none [], renewCallCount_gen n d none [], supervisorLoop_gen n d none]
  · unfold RenewSecretRun mockEndpoint
    rw [List.append_assoc, List.singleton_append,
      renewerEvents_gen n d none extra, renewCallCount_gen n d none extra,
      supervisorLoop_gen n d none]
  · rw [mockEndpoint, List.replicate_succ, List.cons_append]
    simp only [RenewTokenRun]
    rw [renewerEvents_gen n d none [], renewCallCount_gen n d none [], supervisorLoop_gen n d none]
    simp [Prod.ext_iff]
    omega

/-- Claim C6 counterexample: against an endpoint that succeeds once then
reports exhaustion, the token supervisor emits zero success notifications
(its initial `RenewSelf(0)` consumed the success silently) and then the
fatal — not the one success notification the claim requires of every Lease
Supervisor. -/
theorem c6_counterexample :
    RenewTokenRun (mockEndpoint 1 3600) = ([Notification.fatal], 2)
      ∧ (RenewTokenRun (mockEndpoint 1 3600)).1 ≠ [Notification.renewSuccess, Notification.fatal] := by
  decide

/-- Claim C7: both supervisors attempt a renewal as their very first action
— `RenewToken` through its explicit `RenewSelf(0)`, `RenewSecret` through
the renewer's renew-first loop — before any timer wait. -/
theorem c7_thm (outcomes : List RenewOutcome) (h : outcomes ≠ []) :
    (RenewTokenActions outcomes).head? = some .renewCall
      ∧ (RenewSecretActions outcomes).head? = some .renewCall := by
  cases outcomes with
  | nil => exact absurd rfl h
  | cons o rest =>
    cases o <;> simp [RenewTokenActions, RenewSecretActions, renewerActions]

/-- Claim C7 witness: the first action at a concrete endpoint trace is a
renew call for both supervisors. -/
theorem c7_witness :
    (RenewTokenActions [.success 3600]).head? = some .renewCall
      ∧ (RenewSecretActions [.success 3600]).head? = some .renewCall :=
  c7_thm [.success 3600] (List.cons_ne_nil _ _)

/-- Claim C2 (amended): with the token method, `Vault.Initialize` never
issues a `Logical().Write` (hence never calls the login endpoint), and when
the client holds no environment token the installed session token equals
the configured token exactly; an environment token, when present, takes
precedence instead. -/
theorem c2_amended (w : World) (v : Vault)
    (hnc : w.newClient = .ok ()) (hsa : w.setAddress = .ok ())
    (hauth : v.authentication = "token") :
    ((Init w v).trace.all fun c => ! c.isWrite) = true
      ∧ (w.envToken = "" → v.credential.token ≠ "" →
          (Init w v).clientToken = v.credential.token) := by
  have hInit : Init w v = afterBranch w (tokenBranch w v) := by
    simp [Init, hnc, hsa, authBranch, hauth]
  rw [hInit]
  constructor
  · by_cases henv : w.envToken = ""
    · by_cases htok : v.credential.token = ""
      · simp [tokenBranch, henv, htok, afterBranch, NetCall.isWrite]
      · simp [tokenBranch, henv, htok, afterBranch, lookupEpilogue, NetCall.isWrite]
    · simp [tokenBranch, henv, afterBranch, lookupEpilogue, NetCall.isWrite]
  · intro henv htok
    simp [tokenBranch, henv, htok, afterBranch, lookupEpilogue]

/-- Claim C2 witness: with no environment token and a configured token, the
installed token is the configured one and no write call is made. -/
theorem c2_witness :
    ((Init w0 vTokCfg).trace.all fun c => ! c.isWrite) = true
      ∧ (Init w0 vTokCfg).clientToken = "cfg-tok" :=
  ⟨(c2_amended w0 vTokCfg rfl rfl rfl).1,
   (c2_amended w0 vTokCfg rfl rfl rfl).2 rfl (by decide)⟩

/-- Claim C2 counterexample: when the client already holds a `VAULT_TOKEN`
environment token, the session token installed by `Vault.Initialize` is the
environment token, not the configured token — refuting "the session token
it installs equals the token from the configuration exactly". -/
theorem c2_counterexample :
    (Init wEnv vTokCfg).clientToken = "env-tok" ∧ vTokCfg.credential.token = "cfg-tok" :=
  ⟨rfl, rfl⟩

/-- Claim C3 (amended): for every supported method, each configuration
field the code validates (token: some token present; approle: role ID then
secret ID; kubernetes: mount, role, service-account file; aws-iam: mount,
role; aws-ec2: mount only; gcp-iam: mount, role, service account; gcp-gce:
mount only; azure-msi: mount, role, resource), when empty, yields a
configuration error before any network call; but for aws-ec2 and gcp-gce
the role is never validated — an empty role does not stop the branch from
issuing its first network call. -/
theorem c3_amended (w : World) (v : Vault)
    (hnc : w.newClient = .ok ()) (hsa : w.setAddress = .ok ()) :
    (v.authentication = "token" → w.envToken = "" → v.credential.token = "" →
      (Init w v).result = .err (.config "Could not get Vault token.") ∧ (Init w v).trace = [])
    ∧ (v.authentication = "approle" → v.credential.roleID = "" →
      (Init w v).result = .err (.config "Role ID not found.") ∧ (Init w v).trace = [])
    ∧ (v.authentication = "approle" → v.credential.roleID ≠ "" → v.credential.secretID = "" →
      (Init w v).result = .err (.config "Secret ID not found.") ∧ (Init w v).trace = [])
    ∧ (v.authentication = "kubernetes" → v.mount = "" →
      (Init w v).result = .err (.config "Auth mount not in config.") ∧ (Init w v).trace = [])
    ∧ (v.authentication = "kubernetes" → v.mount ≠ "" → v.role = "" →
      (Init w v).result = .err (.config "K8s role not in config.") ∧ (Init w v).trace = [])
    ∧ (v.authentication = "kubernetes" → v.mount ≠ "" → v.role ≠ "" →
        v.credential.serviceAccount = "" →
      (Init w v).result = .err (.config "K8s SA file not in config.") ∧ (Init w v).trace = [])
    ∧ (v.authentication = "aws-iam" → v.mount = "" →
      (Init w v).result = .err (.config "Auth mount not in config.") ∧ (Init w v).trace = [])
    ∧ (v.authentication = "aws-iam" → v.mount ≠ "" → v.role = "" →
      (Init w v).result = .err (.config "AWS role not in config.") ∧ (Init w v).trace = [])
    ∧ (v.authentication = "aws-ec2" → v.mount = "" →
      (Init w v).result = .err (.config "Auth mount not in config.") ∧ (Init w v).trace = [])
    ∧ (v.authentication = "gcp-iam" → v.mount = "" →
      (Init w v).result = .err (.config "Auth mount not in config.") ∧ (Init w v).trace = [])
    ∧ (v.authentication = "gcp-iam" → v.mount ≠ "" → v.role = "" →
      (Init w v).result = .err (.config "GCP role not in config.") ∧ (Init w v).trace = [])
    ∧ (v.authentication = "gcp-iam" → v.mount ≠ "" → v.role ≠ "" →
        v.credential.serviceAccount = "" →
      (Init w v).result = .err (.config "GCP SA not in config.") ∧ (Init w v).trace = [])
    ∧ (v.authentication = "gcp-gce" → v.mount = "" →
      (Init w v).result = .err (.config "Auth mount not in config.") ∧ (Init w v).trace = [])
    ∧ (v.authentication = "azure-msi" → v.mount = "" →
      (Init w v).result = .err (.config "Auth mount not in config.") ∧ (Init w v).trace = [])
    ∧ (v.authentication = "azure-msi" → v.mount ≠ "" → v.role = "" →
      (Init w v).result = .err (.config "Azure role not in config.") ∧ (Init w v).trace = [])
    ∧ (v.authentication = "azure-msi" → v.mount ≠ "" → v.role ≠ "" →
        v.credential.serviceAccount = "" →
      (Init w v).result = .err (.config "Azure resource not in config.") ∧ (Init w v).trace = [])
    ∧ (v.authentication = "aws-ec2" → v.mount ≠ "" →
      (Init w v).trace.head? = some .metadataCheck)
    ∧ (v.authentication = "gcp-gce" → v.mount ≠ "" → w.gceAvailable = true →
      (Init w v).trace.head? = some (.httpGet (gceMetaUrl v))) := by
  have hInit : Init w v = afterBranch w (authBranch w v) := by
    simp [Init, hnc, hsa]
  refine ⟨?_, ?_, ?_, ?_, ?_, ?_, ?_, ?_, ?_, ?_, ?_, ?_, ?_, ?_, ?_, ?_, ?_, ?_⟩
  · intro ha h1 h2
    rw [hInit]; simp +decide [authBranch, ha, tokenBranch, h1, h2, afterBranch]
  · intro ha h1
    rw [hInit]; simp +decide [authBranch, ha, approleBranch, h1, afterBranch]
  · intro ha h1 h2
    rw [hInit]; simp +decide [authBranch, ha, approleBranch, h1, h2, afterBranch]
  · intro ha h1
    rw [hInit]; simp +decide [authBranch, ha, kubernetesBranch, h1, afterBranch]
  · intro ha h1 h2
    rw [hInit]; simp +decide [authBranch, ha, kubernetesBranch, h1, h2, afterBranch]
  · intro ha h1 h2 h3
    rw [hInit]; simp +decide [authBranch, ha, kubernetesBranch, h1, h2, h3, afterBranch]
  · intro ha h1
    rw [hInit]; simp +decide [authBranch, ha, awsIamBranch, h1, afterBranch]
  · intro ha h1 h2
    rw [hInit]; simp +decide [authBranch, ha, awsIamBranch, h1, h2, afterBranch]
  · intro ha h1
    rw [hInit]; simp +decide [authBranch, ha, awsEc2Branch, h1, afterBranch]
  · intro ha h1
    rw [hInit]; simp +decide [authBranch, ha, gcpIamBranch, h1, afterBranch]
  · intro ha h1 h2
    rw [hInit]; simp +decide [authBranch, ha, gcpIamBranch, h1, h2, afterBranch]
  · intro ha h1 h2 h3
    rw [hInit]; simp +decide [authBranch, ha, gcpIamBranch, h1, h2, h3, afterBranch]
  · intro ha h1
    rw [hInit]; simp +decide [authBranch, ha, gcpGceBranch, h1, afterBranch]
  · intro ha h1
    rw [hInit]; simp +decide [authBranch, ha, azureMsiBranch, h1, afterBranch]
  · intro ha h1 h2
    rw [hInit]; simp +decide [authBranch, ha, azureMsiBranch, h1, h2, afterBranch]
  · intro ha h1 h2 h3
    rw [hInit]; simp +decide [authBranch, ha, azureMsiBranch, h1, h2, h3, afterBranch]
  · intro ha hm
    rw [hInit]
    have hb : authBranch w v = awsEc2Branch w v := by simp +decide [authBranch, ha]
    rw [hb]
    unfold awsEc2Branch
    rw [if_neg hm]
    cases hec : w.ec2Available
    · simp [hec, afterBranch]
    · simp only [hec, Bool.not_true, Bool.false_eq_true, not_true_eq_false, if_false,
        not_false_eq_true, if_true, ite_false, ite_true]
      rcases hh : w.httpGet pkcs7Url with e | resp <;> simp only [hh]
      · rfl
      · exact afterBranch_extract_head w _ _ _ _
  · intro ha hm hg
    rw [hInit]
    have hb : authBranch w v = gcpGceBranch w v := by simp +decide [authBranch, ha]
    rw [hb]
    unfold gcpGceBranch
    rw [if_neg hm]
    simp only [hg, not_true_eq_false, if_false, ite_false, ite_true]
    rcases hh : w.httpGet (gceMetaUrl v) with e | resp <;> simp only [hh]
    · rfl
    · exact afterBranch_extract_head w _ _ _ _

/-- Claim C3 witness: an approle configuration with an empty role ID is
rejected with a configuration error and an empty network trace. -/
theorem c3_witness :
    (Init w0 vApprole).result = .err (.config "Role ID not found.")
      ∧ (Init w0 vApprole).trace = [] :=
  (c3_amended w0 vApprole rfl rfl).2.1 rfl rfl

/-- Claim C3 counterexample: an aws-ec2 configuration with an empty role
(a required field per the spec's table) is not rejected: `Vault.Initialize`
issues network calls and completes without a configuration error. -/
theorem c3_counterexample :
    vEc2.role = ""
      ∧ (Init wEc2 vEc2).result = .ok true
      ∧ (Init wEc2 vEc2).trace
          = [.metadataCheck, .httpGet pkcs7Url, .write "auth/aws/login", .lookupSelf] :=
  ⟨rfl, rfl, rfl⟩

/-- Claim C4 (amended): the token supervisor is started if and only if the
self-lookup reports `renewable = true`; but the secret supervisor is
launched unconditionally by `main.init` for the fetched database secret,
without consulting its renewable flag. -/
theorem c4_amended :
    (∀ (w : World) (v : Vault) (b : Bool), (Init w v).result = .ok b →
      ∃ lk, w.lookupSelf = .ok (some lk) ∧ dataGet lk.data "renewable" = some (.bool b))
    ∧ (∀ (w : World) (dbRole : String) (s : Secret), dbRole ≠ "" →
      w.read dbRole = .ok (some s) → (appSecretPhase w dbRole).renewSecretStarted = true) := by
  constructor
  · intro w v b h
    unfold Init at h
    rcases hnc : w.newClient with e | u <;> rw [hnc] at h
    · simp at h
    · rcases hsa : w.setAddress with e | u' <;> rw [hsa] at h
      · simp at h
      · simp only [] at h
        rcases hab : authBranch w v with ⟨t, tok, r⟩
        rw [hab] at h
        rcases r with x | e | m
        · simp only [afterBranch] at h
          unfold lookupEpilogue at h
          rcases hl : w.lookupSelf with e | os
          · rw [hl] at h; simp at h
          · rcases os with _ | lk
            · rw [hl] at h; simp at h
            · rw [hl] at h
              simp at h
              rcases hd : dataGet lk.data "renewable" with _ | val
              · rw [hd] at h; simp at h
              · rcases val with s' | b' | n'
                · rw [hd] at h; simp at h
                · rw [hd] at h
                  simp at h
                  subst h
                  exact ⟨lk, by simp [hl], hd⟩
                · rw [hd] at h; simp at h
        · simp [afterBranch] at h
        · simp [afterBranch] at h
  · intro w dbRole s hne hr
    unfold appSecretPhase
    rw [if_neg hne]
    simp [GetSecret, hr]

/-- Claim C4 witness: a successful aws-ec2 initialization whose lookup
reports renewable, and an unconditional secret-supervisor launch at a
concrete fetched secret. -/
theorem c4_witness :
    (∃ lk, wEc2.lookupSelf = .ok (some lk) ∧ dataGet lk.data "renewable" = some (.bool true))
      ∧ (appSecretPhase wSec "db/creds/app").renewSecretStarted = true :=
  ⟨c4_amended.1 wEc2 vEc2 true rfl,
   c4_amended.2 wSec "db/creds/app" sNonRenew (by decide) rfl⟩

/-- Claim C4 counterexample: the database secret fetched by `main.init` is
not renewable, yet `go vault.RenewSecret(secret)` is launched for it —
refuting "a secret supervisor is attached only to a secret confirmed
renewable". -/
theorem c4_counterexample :
    wSec.read "db/creds/app" = .ok (some sNonRenew)
      ∧ sNonRenew.renewable = false
      ∧ (appSecretPhase wSec "db/creds/app").renewSecretStarted = true :=
  ⟨rfl, rfl, rfl⟩

end GoVault
